import Mathlib

/-!
Verification of the SQL template validator of the Inventory-AI-Agent
repository (`app/sql_validator.py`) and of the parameter preprocessing of
`app/db.py`.

The validator is a pure function over the input string together with the
output of `sqlparse`.  We embed it shallowly:

* all string manipulation (lowercasing, substring tests, the regular
  expressions used by the validator) is translated into executable
  functions over `List Char`; each matcher carries a comment naming the
  regular expression of the source it implements, and mirrors Python `re`
  search semantics (leftmost match, greedy or lazy quantifiers) for the
  shape of pattern actually used;
* the external `sqlparse` library is abstracted as an explicit input: a
  `ParseResult` records the statement list produced by `sqlparse.parse`,
  and for each statement its `get_type()` string and its `flatten()`ed
  token stream.  A raised parser exception is represented by passing
  `Except.error`.  Note that `TokenList.flatten()` in sqlparse yields only
  ungrouped (leaf) tokens, while `sqlparse.sql.Identifier` and
  `sqlparse.sql.Function` are group nodes; hence on real parser output the
  `isinstance` tests of the token loop never fire.  The loop is embedded
  faithfully nonetheless, over tokens carrying the flags the code inspects.

Strings handled by the application are ASCII; the embedding uses the ASCII
case conversions (`Char.toLower`/`Char.toUpper`), which agree with Python
`str.lower`/`str.upper` on ASCII, and the ASCII `\s`, `\w` and digit
classes of Python `re`.
-/

namespace InventoryAI

/-- Shorthand for the character list of a string literal. -/
def strL (s : String) : List Char := s.data

/-- Python regex `\s` class (ASCII): space, tab, newline, CR, vertical tab, form feed. -/
def isWs (c : Char) : Bool :=
  c = ' ' || c = '\t' || c = '\n' || c = '\r' || c = '\x0b' || c = '\x0c'

/-- Python regex `\w` class (ASCII): letters, digits, underscore. -/
def isWordChar (c : Char) : Bool :=
  c.isAlpha || c.isDigit || c = '_'

/-- Python `str.lower` (ASCII fragment). -/
def toLowerL (l : List Char) : List Char := l.map Char.toLower

/-- Python `str.strip()`: drop whitespace from both ends. -/
def pyStrip (l : List Char) : List Char :=
  ((l.dropWhile isWs).reverse.dropWhile isWs).reverse

/-- Python substring test `pat in s`. -/
def containsSeq (pat : List Char) : List Char → Bool
  | [] => pat.isEmpty
  | s@(_ :: rest) => pat.isPrefixOf s || containsSeq pat rest

/-- Python `s.split(pat)[0]` (and `s.split(pat, 1)[0]`): the part before the
first occurrence of `pat`; the whole list if `pat` does not occur. -/
def beforeSeq (pat : List Char) : List Char → List Char
  | [] => []
  | s@(c :: rest) => if pat.isPrefixOf s then [] else c :: beforeSeq pat rest

/-- Python `s.split(".", 1)[1]`: the part after the first dot. -/
def afterFirstDot : List Char → List Char
  | [] => []
  | c :: rest => if c = '.' then rest else afterFirstDot rest

/-- Python `s.replace(".", "", 1)`: remove the first dot. -/
def removeFirstDot : List Char → List Char
  | [] => []
  | c :: rest => if c = '.' then rest else c :: removeFirstDot rest

/-- Python `str.isdigit` (ASCII fragment): nonempty and all digits. -/
def pyIsDigit (l : List Char) : Bool := !l.isEmpty && l.all Char.isDigit

/-- Element of a simple regex made of literals and whitespace quantifiers. -/
inductive RTok
  | lit : List Char → RTok
  | ws0 : RTok
  | ws1 : RTok
deriving Repr

/-- Match a sequence of `RTok`s at the head of the input and return the rest.
All patterns of the source alternate whitespace quantifiers with literals
that start with a non-whitespace character, so maximal munch for `\s*`/`\s+`
coincides with backtracking regex semantics. -/
def matchToksRest : List RTok → List Char → Option (List Char)
  | [], s => some s
  | RTok.lit l :: ts, s =>
    if l.isPrefixOf s then matchToksRest ts (s.drop l.length) else none
  | RTok.ws0 :: ts, s => matchToksRest ts (s.dropWhile isWs)
  | RTok.ws1 :: ts, s =>
    match s with
    | c :: rest => if isWs c then matchToksRest ts (rest.dropWhile isWs) else none
    | [] => none

/-- Python `re.search` of a literal/whitespace pattern: does it match at some
position of the input. -/
def searchToks (ts : List RTok) : List Char → Bool
  | [] => (matchToksRest ts []).isSome
  | s@(_ :: rest) => (matchToksRest ts s).isSome || searchToks ts rest

/-- Word-boundary test: `w` matches here and the next character is not a word
character (Python `\bw\b` at this position, with the left boundary checked by
the caller). -/
def wordHere (w : List Char) (s : List Char) : Bool :=
  w.isPrefixOf s &&
    (match s.drop w.length with
     | [] => true
     | c :: _ => !(isWordChar c))

/-- Scan for `\b w \b` keeping track of whether the previous character was a
word character. -/
def searchWordAux (w : List Char) : List Char → Bool → Bool
  | [], _ => false
  | s@(c :: rest), prevW =>
    (!prevW && wordHere w s) || searchWordAux w rest (isWordChar c)

/-- Python `re.search(r"\bw\b", s)` for a word `w` made of word characters. -/
def searchWord (w : List Char) (s : List Char) : Bool :=
  searchWordAux w s false

/-!
Matcher for the two group-extracting regexes of the source,
`re.search(r"select\s+(.*?)\s+from", sql_lower, re.DOTALL)` and
`re.search(r"set\s+(.*?)\s+where", sql_lower, re.DOTALL)`, both of shape
`A\s+(.*?)\s+B` with `A`, `B` literals of non-whitespace characters.

Backtracking semantics of Python `re` for this shape, at a candidate start
position: `A` must match, followed by at least one whitespace character;
the first `\s+` is greedy, so it first consumes the maximal whitespace run;
the lazy group then grows from the empty string, and for each candidate end
the second `\s+` requires a contiguous nonempty whitespace run reaching an
occurrence of `B`.  Hence:

* a match exists at the position iff `A` is followed by a whitespace
  character and, strictly after that character, some occurrence of `B` is
  immediately preceded by a whitespace character;
* when a match exists, the group is the (possibly empty) segment from the
  end of the maximal whitespace run after `A` to the first later position
  from which a nonempty whitespace run reaches an occurrence of `B`; if no
  such position exists the engine backtracks the first `\s+` by one
  character and the group is empty.

`re.search` itself scans candidate start positions left to right and
returns the first one admitting a match.
-/

/-- Does some occurrence of `B` in the input have a whitespace character
immediately before it (both inside the input)? -/
def wsThenLit (B : List Char) : List Char → Bool
  | [] => false
  | c :: rest => (isWs c && B.isPrefixOf rest) || wsThenLit B rest

/-- From this position: zero or more whitespace characters followed by `B`. -/
def wsStarLit (B : List Char) : List Char → Bool
  | [] => B.isEmpty
  | s@(c :: rest) => B.isPrefixOf s || (isWs c && wsStarLit B rest)

/-- From this position: a nonempty whitespace run followed by `B`. -/
def vRunThenLit (B : List Char) : List Char → Bool
  | [] => false
  | c :: rest => isWs c && wsStarLit B rest

/-- Minimal prefix of the input whose remainder satisfies `vRunThenLit B`. -/
def groupScan (B : List Char) : List Char → Option (List Char)
  | [] => none
  | s@(c :: rest) =>
    if vRunThenLit B s then some [] else (groupScan B rest).map (fun g => c :: g)

/-- Match `A\s+(.*?)\s+B` at the head of the input, returning the group. -/
def lazyGroupAt (A B : List Char) (s : List Char) : Option (List Char) :=
  if A.isPrefixOf s then
    match s.drop A.length with
    | [] => none
    | c :: rest =>
      if isWs c && wsThenLit B rest then
        let tail := (c :: rest).dropWhile isWs
        some ((groupScan B tail).getD [])
      else none
  else none

/-- Python `re.search(r"A\s+(.*?)\s+B", s, re.DOTALL).group(1)` (with `None`
for no match): scan start positions left to right. -/
def extractLazyGroup (A B : List Char) : List Char → Option (List Char)
  | [] => none
  | s@(_ :: rest) =>
    match lazyGroupAt A B s with
    | some g => some g
    | none => extractLazyGroup A B rest

/-- Tail test for the pattern fragment `\b\s*\(`: the character at this
position is not a word character (the boundary), and after optional
whitespace an opening parenthesis follows. -/
def boundWsParen (s : List Char) : Bool :=
  (match s with
   | [] => false
   | c :: _ => !(isWordChar c)) &&
  (match s.dropWhile isWs with
   | c :: _ => c = '('
   | [] => false)

/-- Match of `(in|not\s+in)\b\s*\(` at this position (the left `\b` is
checked by the scanning caller). -/
def inClauseHere (s : List Char) : Bool :=
  ((strL "in").isPrefixOf s && boundWsParen (s.drop 2)) ||
  ((strL "not").isPrefixOf s &&
    (match s.drop 3 with
     | c :: rest =>
       isWs c &&
         (let r := rest.dropWhile isWs
          (strL "in").isPrefixOf r && boundWsParen (r.drop 2))
     | [] => false))

/-- Scanner for `re.search(r"\b(in|not\s+in)\b\s*\(", s)`. -/
def searchInClauseAux : List Char → Bool → Bool
  | [], _ => false
  | s@(c :: rest), prevW =>
    (!prevW && inClauseHere s) || searchInClauseAux rest (isWordChar c)

/-- Python `re.search(r"\b(in|not\s+in)\b\s*\(", s)` as a Boolean. -/
def searchInClause (s : List Char) : Bool :=
  searchInClauseAux s false

/-!
Schema registry of `app/sql_validator.py` (lines 8-16): the allowed table
with its columns, the allowed functions and the allowed arithmetic
operators.
-/

/-- Columns of the single allowed table. -/
def inventoryColumns : List (List Char) :=
  [strL "id", strL "item", strL "unit_cost", strL "unit_price",
   strL "quantity_sold", strL "quantity_available"]

/-- ALLOWED_TABLES of the source: a one-entry map from table name to its
column set. -/
def ALLOWED_TABLES : List (List Char × List (List Char)) :=
  [(strL "inventory", inventoryColumns)]

/-- Keys of ALLOWED_TABLES (membership `x in ALLOWED_TABLES` in Python
tests dictionary keys). -/
def allowedTableNames : List (List Char) := ALLOWED_TABLES.map Prod.fst

/-- ALLOWED_FUNCTIONS of the source. -/
def ALLOWED_FUNCTIONS : List (List Char) :=
  [strL "count", strL "sum", strL "avg", strL "max", strL "min", strL "strftime"]

/-- ALLOWED_OPERATORS of the source. -/
def ALLOWED_OPERATORS : List Char := ['+', '-', '*', '/', '%']

/-- Python `set().union(*ALLOWED_TABLES.values())`. -/
def all_allowed_columns : List (List Char) :=
  ALLOWED_TABLES.foldl (fun acc kv => acc ++ kv.snd) []

/-- Hard-coded alias allowlist of `validate_sql` (lines 199-201). -/
def aliasAllowlist : List (List Char) :=
  [strL "as", strL "total_profit", strL "profit_per_unit", strL "total_cost_value",
   strL "total_price_value", strL "total_value", strL "avg_price", strL "avg_cost",
   strL "min_price", strL "max_price", strL "inventory_value", strL "count",
   strL "total", strL "average", strL "minimum", strL "maximum"]

/-- Membership of a character-list string in a list of such strings
(Python `x in xs`). -/
def memCL (xs : List (List Char)) (x : List Char) : Bool := decide (x ∈ xs)

/-!
Embedding of `validate_expressions` (lines 219-264).
-/

/-- Characters of the split class `[\s\(\)\+\-\*\/\%\,]` used by
`re.split` in `validate_expressions`. -/
def isSplitChar (c : Char) : Bool :=
  isWs c || c = '(' || c = ')' || c = '+' || c = '-' || c = '*' || c = '/' ||
    c = '%' || c = ','

/-- Python `re.split(r"[\s\(\)\+\-\*\/\%\,]", expr)`: split at every
occurrence of a class character, keeping empty segments. -/
def splitFrags (cs : List Char) : List (List Char) :=
  cs.foldr
    (fun c acc =>
      if isSplitChar c then [] :: acc
      else
        match acc with
        | g :: rest => (c :: g) :: rest
        | [] => [[c]])
    [[]]

/-- Alias stripping at the head of the expression loop (lines 226-228):
if the lowercased expression contains " as ", keep the stripped part
before the first occurrence. -/
def stripAsExpr (e : List Char) : List Char :=
  if containsSeq (strL " as ") (toLowerL e) then pyStrip (beforeSeq (strL " as ") e)
  else e

/-- Nonempty fragments of one expression, after alias stripping (lines
230-233; the split class contains all whitespace, so the Python
`p.strip()` leaves each nonempty part unchanged). -/
def exprFragments (e : List Char) : List (List Char) :=
  (splitFrags (stripAsExpr e)).filter (fun p => !p.isEmpty)

/-- Per-fragment check of lines 236-244: numbers are skipped, every other
fragment must be an allowed column or an allowed function. -/
def fragOK (p : List Char) : Bool :=
  pyIsDigit (removeFirstDot p) ||
    memCL all_allowed_columns (toLowerL p) || memCL ALLOWED_FUNCTIONS (toLowerL p)

/-- Keyword denylist of `unsafe_patterns` (lines 247-256), the word-shaped
patterns. -/
def UNSAFE_WORDS : List (List Char) :=
  [strL "case", strL "when", strL "then", strL "else", strL "end",
   strL "select", strL "from", strL "union", strL "except", strL "intersect",
   strL "exists", strL "create", strL "drop", strL "alter",
   strL "delete", strL "insert"]

/-- Does some `unsafe_patterns` regex match the lowercased expression
(lines 258-262)?  The word patterns, the IN-clause pattern and the literal
semicolon pattern `\;`. -/
def exprUnsafe (e : List Char) : Bool :=
  let el := toLowerL e
  UNSAFE_WORDS.any (fun w => searchWord w el) || searchInClause el || el.contains ';'

/-- Embedding of `validate_expressions`: the fragment loop (lines 225-244)
followed by the denylist loop (lines 258-262); early `return False` of
either loop is equivalent to the conjunction of the per-element checks. -/
def validate_expressions (exprs : List (List Char)) : Bool :=
  exprs.all (fun e => (exprFragments e).all fragOK) &&
    exprs.all (fun e => !exprUnsafe e)

/-!
Embedding of `validate_update_statement` (lines 266-333).
-/

/-- Regex `^\s*update\s+inventory\b` (line 281). -/
def updateInventoryAnchor (s : List Char) : Bool :=
  match matchToksRest
      [RTok.ws0, RTok.lit (strL "update"), RTok.ws1, RTok.lit (strL "inventory")] s with
  | some r =>
    (match r with
     | [] => true
     | c :: _ => !(isWordChar c))
  | none => false

/-- Regex `where\s+(item\s*=\s*\?|id\s*=\s*\?)` (line 291), searched
anywhere in the lowercased statement. -/
def whereIdentitySearch (s : List Char) : Bool :=
  searchToks
    [RTok.lit (strL "where"), RTok.ws1, RTok.lit (strL "item"), RTok.ws0,
     RTok.lit (strL "="), RTok.ws0, RTok.lit (strL "?")] s ||
  searchToks
    [RTok.lit (strL "where"), RTok.ws1, RTok.lit (strL "id"), RTok.ws0,
     RTok.lit (strL "="), RTok.ws0, RTok.lit (strL "?")] s

/-- Pattern `quantity_sold\s*=\s*quantity_sold\s*\+\s*\?` (first
alternative of `record_sale_pattern`, line 310, and line 317). -/
def quantitySoldPlusPat : List RTok :=
  [RTok.lit (strL "quantity_sold"), RTok.ws0, RTok.lit (strL "="), RTok.ws0,
   RTok.lit (strL "quantity_sold"), RTok.ws0, RTok.lit (strL "+"), RTok.ws0,
   RTok.lit (strL "?")]

/-- Pattern `quantity_available\s*=\s*quantity_available\s*\-\s*\?` (second
alternative of `record_sale_pattern`, line 310, and line 318). -/
def quantityAvailMinusPat : List RTok :=
  [RTok.lit (strL "quantity_available"), RTok.ws0, RTok.lit (strL "="), RTok.ws0,
   RTok.lit (strL "quantity_available"), RTok.ws0, RTok.lit (strL "-"), RTok.ws0,
   RTok.lit (strL "?")]

/-- Pattern `quantity_available\s*=\s*quantity_available\s*\+\s*\?`
(`add_stock_pattern`, line 311). -/
def addStockPat : List RTok :=
  [RTok.lit (strL "quantity_available"), RTok.ws0, RTok.lit (strL "="), RTok.ws0,
   RTok.lit (strL "quantity_available"), RTok.ws0, RTok.lit (strL "+"), RTok.ws0,
   RTok.lit (strL "?")]

/-- Check of the extracted SET clause (lines 309-330): when the clause
contains a comma or a newline both record-sale assignments must be found
(lines 316-319), otherwise `record_sale_pattern` is an alternation of the
two assignment regexes (line 323); `add_stock_pattern` is searched either
way, and at least one of `valid_record_sale`, `valid_add_stock` must
hold (line 328). -/
def setClauseOK (set_columns : List Char) : Bool :=
  let valid_record_sale :=
    if set_columns.contains ',' || set_columns.contains '\n' then
      searchToks quantitySoldPlusPat set_columns &&
        searchToks quantityAvailMinusPat set_columns
    else
      searchToks quantitySoldPlusPat set_columns ||
        searchToks quantityAvailMinusPat set_columns
  let valid_add_stock := searchToks addStockPat set_columns
  valid_record_sale || valid_add_stock

/-- Embedding of `validate_update_statement(sql_query)`: the sequence of
early `return False` checks is written as a conjunction (equivalent for a
pure function).  The checks in order: the anchor regex of line 281, the
`where` substring test of line 286, the identity-filter regex of line 292,
extraction of the SET clause (line 301, reject when it fails), and the
pattern check of the stripped SET clause. -/
def validate_update_statement (sql : List Char) : Bool :=
  let sl := toLowerL sql
  updateInventoryAnchor sl &&
  containsSeq (strL "where") sl &&
  whereIdentitySearch sl &&
  (match extractLazyGroup (strL "set") (strL "where") sl with
   | none => false
   | some g => setClauseOK (pyStrip g))

/-!
Embedding of the SELECT-list extraction of `validate_sql` (lines 57-122):
a purely textual pass over the lowercased query.
-/

/-- Working sets built by the extraction: columns, functions and computed
expressions (the `identifiers` and `tables` sets are fed by the token
loop, embedded separately). -/
structure SelExtract where
  columns : List (List Char)
  functions : List (List Char)
  expressions : List (List Char)
deriving Repr, DecidableEq

/-- Extraction state with all sets empty. -/
def emptySel : SelExtract := ⟨[], [], []⟩

/-- Comma split of the select list honouring parenthesis depth (lines
73-95): commas at depth zero separate terms (each appended stripped), a
closing parenthesis at depth zero is kept as an ordinary character, and a
trailing nonempty term is appended stripped. -/
def splitColsAux : List Char → Nat → List Char → List (List Char)
  | [], _, cur => if cur.isEmpty then [] else [pyStrip cur]
  | c :: rest, depth, cur =>
    if c = '(' then splitColsAux rest (depth + 1) (cur ++ [c])
    else if c = ')' && depth > 0 then splitColsAux rest (depth - 1) (cur ++ [c])
    else if c = ',' && depth = 0 then pyStrip cur :: splitColsAux rest 0 []
    else splitColsAux rest depth (cur ++ [c])

/-- Top-level comma split of the stripped select list. -/
def splitColsTop (cs : List Char) : List (List Char) := splitColsAux cs 0 []

/-- Regex `^(\w+)\(` on the lowercased term (line 99): a maximal leading
run of word characters immediately followed by an opening parenthesis
(shrinking the greedy `\w+` cannot reach `(`, a non-word character, so
maximal munch is exact). -/
def funcNameHere (col : List Char) : Option (List Char) :=
  let w := col.takeWhile isWordChar
  if !w.isEmpty &&
      (match col.drop w.length with
       | c :: _ => c = '('
       | [] => false) then some w
  else none

/-- Per-term processing of the select list (lines 97-122): record an
allowed aggregate-function name, classify terms containing a parenthesis
or an arithmetic operator as computed expressions, and otherwise strip an
`as` alias and a table prefix before recording a column. -/
def processCol (acc : SelExtract) (col : List Char) : SelExtract :=
  let functions :=
    match funcNameHere (toLowerL col) with
    | some f => if memCL ALLOWED_FUNCTIONS f then acc.functions ++ [f] else acc.functions
    | none => acc.functions
  if col.contains '(' || ALLOWED_OPERATORS.any (fun op => col.contains op) then
    { acc with functions := functions, expressions := acc.expressions ++ [col] }
  else
    let col1 :=
      if containsSeq (strL " as ") col then pyStrip (beforeSeq (strL " as ") col)
      else col
    let col2 := if col1.contains '.' then afterFirstDot col1 else col1
    { acc with functions := functions, columns := acc.columns ++ [col2] }

/-- SELECT-list extraction (lines 64-122) over the lowercased query: find
the clause between `select` and `from`, pass on a bare `*`, and otherwise
process the comma-separated terms. -/
def extractSelectCols (sl : List Char) : SelExtract :=
  match extractLazyGroup (strL "select") (strL "from") sl with
  | none => emptySel
  | some g =>
    let select_columns := pyStrip g
    if select_columns = strL "*" then emptySel
    else (splitColsTop select_columns).foldl processCol emptySel

/-!
Model of the sqlparse output consumed by `validate_sql`.

`sqlparse.parse` returns a tuple of statements; for each statement the
validator uses `get_type()` (a string such as "SELECT", "UPDATE",
"DELETE", "UNKNOWN") and the flattened token stream `parsed.flatten()`.
A flattened token is inspected through `isinstance(token,
sqlparse.sql.Identifier)`, `isinstance(token, sqlparse.sql.Function)`,
`token.parent` being a `Function`, `token.value`, and
`token.get_real_name()`/`get_name()`; the previous-token lookups of lines
144-154 are recorded as the two Booleans they feed.  In sqlparse,
`TokenList.flatten()` is documented as a "Generator yielding ungrouped
tokens": it recurses into every group node and yields only non-group leaf
tokens, while `Identifier` and `Function` are `TokenList` subclasses with
`is_group` true.  Hence on output actually produced by sqlparse both
`isIdentifierGroup` and `isFunctionGroup` are false for every token; the
predicate `flattenedLeaves` states this, and the token loop is embedded
faithfully for arbitrary flags.
-/

/-- One flattened token as inspected by the loop of lines 124-158. -/
structure SToken where
  isIdentifierGroup : Bool
  isFunctionGroup : Bool
  parentIsFunction : Bool
  value : String
  realName : String
  prevIsFromJoin : Bool
  prevIsUpdate : Bool
deriving Repr, DecidableEq

/-- One parsed statement: its `get_type()` and its flattened tokens. -/
structure Stmt where
  stype : String
  tokens : List SToken
deriving Repr, DecidableEq

/-- Output of `sqlparse.parse`. -/
structure ParseResult where
  statements : List Stmt
deriving Repr, DecidableEq

/-- Invariant of real sqlparse output: `flatten()` yields only ungrouped
leaf tokens, never `Identifier` or `Function` group nodes. -/
def flattenedLeaves (st : Stmt) : Prop :=
  ∀ t ∈ st.tokens, t.isIdentifierGroup = false ∧ t.isFunctionGroup = false

instance (st : Stmt) : Decidable (flattenedLeaves st) := by
  unfold flattenedLeaves; infer_instance

/-- Sets accumulated by the token loop. -/
structure WalkAcc where
  identifiers : List (List Char)
  tables : List (List Char)
  functions : List (List Char)
deriving Repr, DecidableEq

/-- Body of the token loop (lines 125-158) for one token. -/
def walkStep (stype : String) (acc : WalkAcc) (t : SToken) : WalkAcc :=
  if t.isIdentifierGroup then
    let is_function_param := t.parentIsFunction
    let is_wildcard := is_function_param && t.value = "*"
    let ident_name := toLowerL t.realName.data
    let identifiers :=
      if (!is_function_param || is_wildcard) && ident_name ≠ strL "*" then
        acc.identifiers ++ [ident_name]
      else acc.identifiers
    let tables :=
      if t.prevIsFromJoin then acc.tables ++ [toLowerL t.realName.data]
      else acc.tables
    let tables :=
      if stype = "UPDATE" && t.prevIsUpdate then tables ++ [toLowerL t.realName.data]
      else tables
    ⟨identifiers, tables, acc.functions⟩
  else if t.isFunctionGroup then
    ⟨acc.identifiers, acc.tables, acc.functions ++ [toLowerL t.realName.data]⟩
  else acc

/-- The token loop over the flattened stream. -/
def tokenWalk (stype : String) (toks : List SToken) : WalkAcc :=
  toks.foldl (walkStep stype) ⟨[], [], []⟩

/-- Identifier check of lines 194-203: a remaining identifier must be the
table name, an allowed column, an allowed function, or a hard-coded alias. -/
def identAllowed (i : List Char) : Bool :=
  memCL allowedTableNames i || memCL all_allowed_columns i ||
    memCL ALLOWED_FUNCTIONS i || memCL aliasAllowlist i

/-- Embedding of the body of `validate_sql` for a single parsed statement
(lines 42-212), with the sequence of early `return False` checks written
as a conjunction (equivalent for a pure function).  In order: the verb
check of line 46; the function check of lines 162-165; the table check of
lines 168-171; the SELECT table-presence check of line 174 (`not tables or
not any(...)` rejects); the expression check of lines 179-181 (only when a
SELECT has computed expressions); the column check of lines 185-189; the
remaining-identifier check of lines 193-203; and for UPDATE statements the
final `validate_update_statement` of line 208 (a SELECT that survives all
checks returns True, line 212). -/
def validate_stmt (sql : String) (st : Stmt) : Bool :=
  let sl := toLowerL sql.data
  let sel := if st.stype = "SELECT" then extractSelectCols sl else emptySel
  let tables0 :=
    if st.stype = "SELECT" then
      if containsSeq (strL "from inventory") sl then [strL "inventory"] else []
    else []
  let w := tokenWalk st.stype st.tokens
  let functions := sel.functions ++ w.functions
  let tables := tables0 ++ w.tables
  let identifiers := w.identifiers
  let columns := sel.columns
  let expressions := sel.expressions
  decide (st.stype = "SELECT" ∨ st.stype = "UPDATE") &&
  functions.all (memCL ALLOWED_FUNCTIONS) &&
  tables.all (memCL allowedTableNames) &&
  (if st.stype = "SELECT" then !tables.isEmpty && tables.any (memCL allowedTableNames)
   else true) &&
  (if st.stype = "SELECT" ∧ expressions ≠ [] then validate_expressions expressions
   else true) &&
  columns.all (memCL all_allowed_columns) &&
  (identifiers.filter (fun i => !(memCL columns i))).all identAllowed &&
  (if st.stype = "UPDATE" then validate_update_statement sql.data else true)

/-- Embedding of `validate_sql(sql_query)` (lines 18-217).  The empty-input
check of line 24 precedes the `try` block; the `sqlparse.parse` call is
abstracted as the second argument, `Except.error` standing for a raised
parser exception that the handler of lines 214-217 turns into a reject;
zero parsed statements (line 31) and more than one (line 37) reject. -/
def validate_sql (sql : String) (parsed : Except String ParseResult) : Bool :=
  if sql.isEmpty then false
  else
    match parsed with
    | Except.error _ => false
    | Except.ok p =>
      match p.statements with
      | [st] => validate_stmt sql st
      | _ => false

/-!
Embedding of the parameter preprocessing of `execute_modification`
(`app/db.py`, lines 125-154).  The sqlite connection, transaction and
error handling are abstracted as the function argument `run`; the
preprocessing of lines 137-144 (uppercase the last parameter when it is a
string) is embedded exactly.
-/

/-- A positional SQL parameter as passed from the API layer. -/
inductive PyVal
  | pstr : String → PyVal
  | pint : Int → PyVal
deriving Repr, DecidableEq

/-- Python `str.upper` (ASCII fragment). -/
def pyUpper (s : String) : String := String.mk (s.data.map Char.toUpper)

/-- Lines 139-144: if the parameter tuple is nonempty and its last element
is a string, replace that element by its uppercase form. -/
def upperLastParam (params : List PyVal) : List PyVal :=
  match params.getLast? with
  | some (PyVal.pstr s) => params.dropLast ++ [PyVal.pstr (pyUpper s)]
  | _ => params

/-- Embedding of `execute_modification(sql_template, params)`: preprocess
the parameters, then hand template and parameters to the execution
machinery `run` (which returns `(rows_affected, error_message)`). -/
def execute_modification (run : String → List PyVal → Nat × Option String)
    (sql_template : String) (params : List PyVal) : Nat × Option String :=
  run sql_template (upperLastParam params)

/-- Test, following the extraction, that the select list is a bare `*` or
consists only of allowed bare column names (the class of SELECT lists of
the acceptance property). -/
def selectListOnlyAllowed (sl : List Char) : Bool :=
  match extractLazyGroup (strL "select") (strL "from") sl with
  | some g =>
    if pyStrip g = strL "*" then true
    else (splitColsTop (pyStrip g)).all (memCL all_allowed_columns)
  | none => false

/-!
Helper lemmas.
-/

/-- On a leaf token (not a group node) the token loop does nothing. -/
lemma walkStep_leaf (stype : String) (acc : WalkAcc) (t : SToken)
    (h1 : t.isIdentifierGroup = false) (h2 : t.isFunctionGroup = false) :
    walkStep stype acc t = acc := by
  simp [walkStep, h1, h2]

/-- On real sqlparse output (only ungrouped leaf tokens) the token loop
collects nothing. -/
lemma tokenWalk_clean (stype : String) (toks : List SToken)
    (h : ∀ t ∈ toks, t.isIdentifierGroup = false ∧ t.isFunctionGroup = false) :
    tokenWalk stype toks = ⟨[], [], []⟩ := by
  have aux : ∀ (l : List SToken) (acc : WalkAcc),
      (∀ t ∈ l, t.isIdentifierGroup = false ∧ t.isFunctionGroup = false) →
      l.foldl (walkStep stype) acc = acc := by
    intro l
    induction l with
    | nil => intro acc _; rfl
    | cons t ts ih =>
      intro acc hl
      have ht := hl t (by simp)
      have hts : ∀ u ∈ ts, u.isIdentifierGroup = false ∧ u.isFunctionGroup = false :=
        fun u hu => hl u (by simp [hu])
      simp only [List.foldl_cons, walkStep_leaf stype acc t ht.1 ht.2]
      exact ih acc hts
  exact aux toks ⟨[], [], []⟩ h

/-- Each allowed bare column name passes untouched through the term
classification: it has no function-call shape, no parenthesis, no
arithmetic operator, no alias marker and no dot. -/
lemma bare_col_facts : ∀ c ∈ all_allowed_columns,
    funcNameHere (toLowerL c) = none ∧
    (c.contains '(' || ALLOWED_OPERATORS.any (fun op => c.contains op)) = false ∧
    containsSeq (strL " as ") c = false ∧
    c.contains '.' = false := by decide

/-- Processing an allowed bare column name appends it to the column set
and nothing else. -/
lemma processCol_bare (acc : SelExtract) (c : List Char)
    (hc : c ∈ all_allowed_columns) :
    processCol acc c = { acc with columns := acc.columns ++ [c] } := by
  obtain ⟨h1, h2, h3, h4⟩ := bare_col_facts c hc
  simp only [Bool.or_eq_false_iff] at h2
  have h2a : ¬ ('(' ∈ c) := by simpa using h2.1
  have h2b : ¬ (∃ x ∈ ALLOWED_OPERATORS, x ∈ c) := by simpa using h2.2
  have h4a : ¬ ('.' ∈ c) := by simpa using h4
  simp [processCol, h1, h2a, h2b, h3, h4a]

/-- Folding the term classification over allowed bare column names appends
them all to the column set. -/
lemma processCols_bare (cols : List (List Char)) :
    ∀ acc : SelExtract, (∀ c ∈ cols, c ∈ all_allowed_columns) →
    cols.foldl processCol acc =
      { acc with columns := acc.columns ++ cols } := by
  induction cols with
  | nil => intro acc _; simp
  | cons c cs ih =>
    intro acc h
    have hc := h c (by simp)
    have hcs : ∀ x ∈ cs, x ∈ all_allowed_columns := fun x hx => h x (by simp [hx])
    simp only [List.foldl_cons, processCol_bare acc c hc]
    rw [ih _ hcs]
    simp

/-- An allowed-only select list extracts to a column set of allowed
columns, with no functions and no computed expressions. -/
lemma selectList_extract (sl : List Char) (h : selectListOnlyAllowed sl = true) :
    ∃ cols, extractSelectCols sl = ⟨cols, [], []⟩ ∧
      (∀ c ∈ cols, c ∈ all_allowed_columns) := by
  cases heq : extractLazyGroup (strL "select") (strL "from") sl with
  | none =>
    simp only [selectListOnlyAllowed, heq] at h
    exact absurd h (by simp)
  | some g =>
    simp only [selectListOnlyAllowed, heq] at h
    simp only [extractSelectCols, heq]
    by_cases hstar : pyStrip g = strL "*"
    · rw [if_pos hstar]
      exact ⟨[], rfl, by simp⟩
    · rw [if_neg hstar] at h ⊢
      have hmem : ∀ c ∈ splitColsTop (pyStrip g), c ∈ all_allowed_columns := by
        intro c hc
        have := (List.all_eq_true.mp h) c hc
        simpa [memCL] using this
      refine ⟨splitColsTop (pyStrip g), ?_, hmem⟩
      rw [processCols_bare _ _ hmem]
      simp [emptySel]

/-- Peeling `validate_sql` down to the single-statement body. -/
lemma validate_sql_ok_single (sql : String) (p : ParseResult) (st : Stmt)
    (hst : p.statements = [st]) (hne : sql.isEmpty = false) :
    validate_sql sql (Except.ok p) = validate_stmt sql st := by
  simp [validate_sql, hne, hst]

/-- An accepted UPDATE statement passed `validate_update_statement`. -/
lemma accept_update_vus (sql : String) (st : Stmt)
    (hty : st.stype = "UPDATE") (h : validate_stmt sql st = true) :
    validate_update_statement sql.data = true := by
  unfold validate_stmt at h
  rw [hty] at h
  simp only [Bool.and_eq_true] at h
  simpa using h.2

/-- The empty string is rejected, so an accepting run has nonempty input. -/
lemma accept_nonempty (sql : String) (pr : Except String ParseResult)
    (h : validate_sql sql pr = true) : sql.isEmpty = false := by
  cases hE : sql.isEmpty
  · rfl
  · exfalso
    unfold validate_sql at h
    rw [hE] at h
    simp at h

/-!
Concrete parser outputs for the witnesses and counterexamples.  Each
statement below is a single SELECT or UPDATE statement, so `sqlparse.parse`
returns one statement of the corresponding `get_type()`; the token list is
the flattened stream, word by word, and since `flatten()` yields only
ungrouped leaf tokens, every `isinstance`-flag is false (the remaining
fields are only read inside the group-node branch and are irrelevant on
leaves). -/

/-- A flattened leaf token with the given text. -/
def leafTok (v : String) : SToken :=
  { isIdentifierGroup := false, isFunctionGroup := false, parentIsFunction := false,
    value := v, realName := v, prevIsFromJoin := false, prevIsUpdate := false }

/-- Leaf tokens for a list of texts. -/
def leafToks (vs : List String) : List SToken := vs.map leafTok

/-- Parse result: the UPDATE with a trailing `OR 1=1` in its WHERE clause. -/
def parseUpdOr : ParseResult :=
  ⟨[⟨"UPDATE", leafToks ["UPDATE", " ", "inventory", " ", "SET", " ",
      "quantity_available", " ", "=", " ", "quantity_available", " ", "+", " ",
      "?", " ", "WHERE", " ", "item", " ", "=", " ", "?", " ", "OR", " ",
      "1", "=", "1"]⟩]⟩

/-- Parse result: the add-stock UPDATE. -/
def parseUpdAdd : ParseResult :=
  ⟨[⟨"UPDATE", leafToks ["UPDATE", " ", "inventory", " ", "SET", " ",
      "quantity_available", " ", "=", " ", "quantity_available", " ", "+", " ",
      "?", " ", "WHERE", " ", "item", " ", "=", " ", "?"]⟩]⟩

/-- Parse result: the UPDATE smuggling a `unit_price` overwrite next to the
add-stock assignment. -/
def parseUpdPrice : ParseResult :=
  ⟨[⟨"UPDATE", leafToks ["UPDATE", " ", "inventory", " ", "SET", " ",
      "quantity_available", " ", "=", " ", "quantity_available", " ", "+", " ",
      "?", ",", " ", "unit_price", " ", "=", " ", "?", " ", "WHERE", " ",
      "item", " ", "=", " ", "?"]⟩]⟩

/-- Parse result: the two-column record-sale UPDATE. -/
def parseUpdSale : ParseResult :=
  ⟨[⟨"UPDATE", leafToks ["UPDATE", " ", "inventory", " ", "SET", " ",
      "quantity_sold", " ", "=", " ", "quantity_sold", " ", "+", " ", "?", ",",
      " ", "quantity_available", " ", "=", " ", "quantity_available", " ", "-",
      " ", "?", " ", "WHERE", " ", "item", " ", "=", " ", "?"]⟩]⟩

/-- Parse result: the SELECT with a second FROM target. -/
def parseSelTwoTables : ParseResult :=
  ⟨[⟨"SELECT", leafToks ["SELECT", " ", "id", " ", "FROM", " ", "inventory",
      ",", " ", "users"]⟩]⟩

/-- Parse result: the SELECT over a disallowed table. -/
def parseSelProducts : ParseResult :=
  ⟨[⟨"SELECT", leafToks ["SELECT", " ", "item", " ", "FROM", " ", "products",
      " ", "WHERE", " ", "item", " ", "=", " ", "?"]⟩]⟩

/-- Parse result: the SELECT calling `length` in its WHERE clause. -/
def parseSelLength : ParseResult :=
  ⟨[⟨"SELECT", leafToks ["SELECT", " ", "item", " ", "FROM", " ", "inventory",
      " ", "WHERE", " ", "length", "(", "item", ")", " ", ">", " ", "?"]⟩]⟩

/-- Parse result: the SELECT with unknown columns in a computed term. -/
def parseSelBadExpr : ParseResult :=
  ⟨[⟨"SELECT", leafToks ["SELECT", " ", "item", ",", " ", "(", "price", " ",
      "-", " ", "cost", ")", " ", "AS", " ", "profit", " ", "FROM", " ",
      "inventory"]⟩]⟩

/-- Parse result: the SELECT with a `union` keyword inside a computed term. -/
def parseSelUnion : ParseResult :=
  ⟨[⟨"SELECT", leafToks ["SELECT", " ", "item", ",", " ", "(", "unit_price",
      " ", "-", " ", "unit_cost", " ", "union", " ", "all", ")", " ", "FROM",
      " ", "inventory"]⟩]⟩

/-- Parse result: the plain allowed SELECT. -/
def parseSelPlain : ParseResult :=
  ⟨[⟨"SELECT", leafToks ["SELECT", " ", "id", ",", " ", "item", " ", "FROM",
      " ", "inventory", " ", "WHERE", " ", "item", " ", "=", " ", "?"]⟩]⟩

/-- Parse result: a DELETE statement. -/
def parseDelete : ParseResult :=
  ⟨[⟨"DELETE", leafToks ["DELETE", " ", "FROM", " ", "inventory", " ",
      "WHERE", " ", "item", " ", "=", " ", "?"]⟩]⟩

/-- Parse result: two stacked statements. -/
def parseTwoStmts : ParseResult :=
  ⟨[⟨"SELECT", leafToks ["SELECT", " ", "id", " ", "FROM", " ", "inventory",
      ";"]⟩,
    ⟨"DROP", leafToks ["DROP", " ", "TABLE", " ", "inventory"]⟩]⟩

/-!
Claim theorems.
-/

/-- C1: whenever parsing the input yields zero statements or more than one
top-level statement (as sqlparse does for a `;`-separated stack), the
validator rejects. -/
theorem single_statement_required (sql : String) (p : ParseResult)
    (h : p.statements.length ≠ 1) : validate_sql sql (Except.ok p) = false := by
  unfold validate_sql
  by_cases hE : sql.isEmpty = true
  · rw [if_pos hE]
  · rw [if_neg hE]
    obtain ⟨stmts⟩ := p
    match stmts with
    | [] => rfl
    | [st] => exact absurd rfl h
    | a :: b :: rest => rfl

/-- Witness for C1 at a two-statement parse result. -/
theorem single_statement_required_witness :
    validate_sql "SELECT id FROM inventory; DROP TABLE inventory"
      (Except.ok parseTwoStmts) = false :=
  single_statement_required _ parseTwoStmts (by decide)

/-- C5: a single statement whose verb is neither SELECT nor UPDATE is
rejected regardless of the tables and columns it mentions. -/
theorem verb_allowlist (sql : String) (p : ParseResult) (st : Stmt)
    (hst : p.statements = [st]) (h1 : st.stype ≠ "SELECT")
    (h2 : st.stype ≠ "UPDATE") : validate_sql sql (Except.ok p) = false := by
  by_cases hE : sql.isEmpty = true
  · unfold validate_sql; rw [if_pos hE]
  · have hne : sql.isEmpty = false := by simpa using hE
    rw [validate_sql_ok_single sql p st hst hne]
    unfold validate_stmt
    simp [h1, h2]

/-- Witness for C5 at a DELETE statement. -/
theorem verb_allowlist_witness :
    validate_sql "DELETE FROM inventory WHERE item = ?"
      (Except.ok parseDelete) = false :=
  verb_allowlist _ parseDelete _ rfl (by decide) (by decide)

/-- C9: a parser exception is normalized to a reject, and the empty input
is rejected before parsing; the validator is a total Boolean function, so
no error ever escapes to the caller. -/
theorem validator_never_raises (sql msg : String) (pr : Except String ParseResult) :
    validate_sql sql (Except.error msg) = false ∧ validate_sql "" pr = false := by
  constructor
  · unfold validate_sql
    by_cases hE : sql.isEmpty = true
    · rw [if_pos hE]
    · rw [if_neg hE]
  · rfl

/-- C10: executing a modification whose last parameter is a string passes
all other parameters through unchanged and uppercases the last one. -/
theorem modification_uppercases_last_param
    (run : String → List PyVal → Nat × Option String) (sql_template : String)
    (ps : List PyVal) (s : String) :
    execute_modification run sql_template (ps ++ [PyVal.pstr s]) =
      run sql_template (ps ++ [PyVal.pstr (pyUpper s)]) := by
  unfold execute_modification upperLastParam
  rw [List.getLast?_concat]
  simp [List.dropLast_concat]

/-- C2 (counterexample): an UPDATE whose WHERE predicate carries an extra
disjunct after the identity comparison — `WHERE item = ? OR 1=1` — is
accepted, because the identity filter is a substring search, not a check of
the full predicate; the claim says any such shape is rejected. -/
theorem where_extra_disjunct_accepted :
    validate_sql
      "UPDATE inventory SET quantity_available = quantity_available + ? WHERE item = ? OR 1=1"
      (Except.ok parseUpdOr) = true := by decide

/-- C2 (amended): an accepted UPDATE does contain `where` and does match
the identity-filter search `where\s+(item\s*=\s*\?|id\s*=\s*\?)` somewhere
in its lowercased text — but nothing constrains the rest of the WHERE
predicate. -/
theorem update_where_identity_required (sql : String) (p : ParseResult)
    (st : Stmt) (hst : p.statements = [st]) (hty : st.stype = "UPDATE")
    (hacc : validate_sql sql (Except.ok p) = true) :
    containsSeq (strL "where") (toLowerL sql.data) = true ∧
      whereIdentitySearch (toLowerL sql.data) = true := by
  have hne := accept_nonempty sql (Except.ok p) hacc
  rw [validate_sql_ok_single sql p st hst hne] at hacc
  have hvus := accept_update_vus sql st hty hacc
  unfold validate_update_statement at hvus
  simp only [Bool.and_eq_true] at hvus
  exact ⟨hvus.1.1.2, hvus.1.2⟩

/-- Witness for the amended C2 at the accepted add-stock UPDATE. -/
theorem update_where_identity_required_witness :
    containsSeq (strL "where")
        (toLowerL (strL "UPDATE inventory SET quantity_available = quantity_available + ? WHERE item = ?")) = true ∧
      whereIdentitySearch
        (toLowerL (strL "UPDATE inventory SET quantity_available = quantity_available + ? WHERE item = ?")) = true :=
  update_where_identity_required
    "UPDATE inventory SET quantity_available = quantity_available + ? WHERE item = ?"
    parseUpdAdd _ rfl rfl (by decide)

/-- C3 (counterexample): an UPDATE whose SET clause adds a `unit_price = ?`
overwrite next to the add-stock assignment is accepted, because the SET
patterns are substring searches over the clause; the claim says any SET
clause containing an assignment to `unit_price` is rejected. -/
theorem set_extra_assignment_accepted :
    validate_sql
      "UPDATE inventory SET quantity_available = quantity_available + ?, unit_price = ? WHERE item = ?"
      (Except.ok parseUpdPrice) = true := by decide

/-- C3 (amended): the SET clause of an accepted UPDATE (the text extracted
between `SET` and `WHERE`) contains at least one of the three sanctioned
self-referential assignment patterns as a substring — but the match is not
exclusive, so further assignments may ride along. -/
theorem update_set_contains_pattern (sql : String) (p : ParseResult)
    (st : Stmt) (hst : p.statements = [st]) (hty : st.stype = "UPDATE")
    (hacc : validate_sql sql (Except.ok p) = true) :
    ∃ g, extractLazyGroup (strL "set") (strL "where") (toLowerL sql.data) = some g ∧
      (searchToks quantitySoldPlusPat (pyStrip g) = true ∨
       searchToks quantityAvailMinusPat (pyStrip g) = true ∨
       searchToks addStockPat (pyStrip g) = true) := by
  have hne := accept_nonempty sql (Except.ok p) hacc
  rw [validate_sql_ok_single sql p st hst hne] at hacc
  have hvus := accept_update_vus sql st hty hacc
  unfold validate_update_statement at hvus
  simp only [Bool.and_eq_true] at hvus
  have hm := hvus.2
  cases heq : extractLazyGroup (strL "set") (strL "where") (toLowerL sql.data) with
  | none => rw [heq] at hm; simp at hm
  | some g =>
    rw [heq] at hm
    simp only [] at hm
    refine ⟨g, rfl, ?_⟩
    unfold setClauseOK at hm
    simp only [Bool.or_eq_true] at hm
    rcases hm with hrs | has
    · by_cases hmulti :
        (pyStrip g).contains ',' = true ∨ (pyStrip g).contains '\n' = true
      · rw [if_pos hmulti] at hrs
        simp only [Bool.and_eq_true] at hrs
        exact Or.inl hrs.1
      · rw [if_neg hmulti] at hrs
        simp only [Bool.or_eq_true] at hrs
        rcases hrs with h | h
        · exact Or.inl h
        · exact Or.inr (Or.inl h)
    · exact Or.inr (Or.inr has)

set_option maxRecDepth 100000 in
/-- Witness for the amended C3 at the accepted record-sale UPDATE. -/
theorem update_set_contains_pattern_witness :
    ∃ g, extractLazyGroup (strL "set") (strL "where")
        (toLowerL (strL "UPDATE inventory SET quantity_sold = quantity_sold + ?, quantity_available = quantity_available - ? WHERE item = ?")) = some g ∧
      (searchToks quantitySoldPlusPat (pyStrip g) = true ∨
       searchToks quantityAvailMinusPat (pyStrip g) = true ∨
       searchToks addStockPat (pyStrip g) = true) :=
  update_set_contains_pattern
    "UPDATE inventory SET quantity_sold = quantity_sold + ?, quantity_available = quantity_available - ? WHERE item = ?"
    parseUpdSale _ rfl rfl (by decide)

/-- C4 (counterexample): a SELECT drawing from a second table next to
`inventory` — `FROM inventory, users` — is accepted, because table
detection for SELECT is only the substring test `"from inventory"` and the
token loop never classifies leaf tokens; the claim says any statement
referencing another table is rejected. -/
theorem second_table_accepted :
    validate_sql "SELECT id FROM inventory, users"
      (Except.ok parseSelTwoTables) = true := by decide

/-- C4 (amended): the table restriction actually enforced is textual — a
SELECT whose lowercased text lacks the substring `from inventory` is
rejected, and an UPDATE not anchored `update inventory` is rejected;
additional tables alongside `inventory` are not detected. -/
theorem table_allowlist_textual (sql : String) (p : ParseResult) (st : Stmt)
    (hst : p.statements = [st]) (hleaves : flattenedLeaves st)
    (h : (st.stype = "SELECT" ∧
            containsSeq (strL "from inventory") (toLowerL sql.data) = false) ∨
         (st.stype = "UPDATE" ∧
            updateInventoryAnchor (toLowerL sql.data) = false)) :
    validate_sql sql (Except.ok p) = false := by
  by_cases hE : sql.isEmpty = true
  · unfold validate_sql; rw [if_pos hE]
  · have hne : sql.isEmpty = false := by simpa using hE
    rw [validate_sql_ok_single sql p st hst hne]
    have hwalk := tokenWalk_clean st.stype st.tokens hleaves
    rcases h with ⟨hty, hcon⟩ | ⟨hty, hanc⟩
    · rw [hty] at hwalk
      unfold validate_stmt
      rw [hty]
      simp [hwalk, hcon]
    · rw [hty] at hwalk
      unfold validate_stmt
      rw [hty]
      have hvusf : validate_update_statement sql.data = false := by
        unfold validate_update_statement
        simp [hanc]
      simp [hvusf]

/-- Witness for the amended C4 at a SELECT over the `products` table. -/
theorem table_allowlist_textual_witness :
    validate_sql "SELECT item FROM products WHERE item = ?"
      (Except.ok parseSelProducts) = false :=
  table_allowlist_textual "SELECT item FROM products WHERE item = ?"
    parseSelProducts _ rfl (by decide) (Or.inl ⟨rfl, by decide⟩)

/-- C6 (counterexample): a SELECT calling the disallowed function `length`
in its WHERE clause is accepted: for SELECT statements only the select list
is examined, the WHERE clause is never scanned (and the token loop never
fires on leaf tokens); the claim says a disallowed function in any clause
is rejected. -/
theorem where_clause_function_accepted :
    validate_sql "SELECT item FROM inventory WHERE length(item) > ?"
      (Except.ok parseSelLength) = true := by decide

/-- C6 (amended): disallowed names are caught only inside computed
SELECT-list terms: if some extracted expression has a fragment that is
neither numeric nor an allowed column nor an allowed function, the
statement is rejected. -/
theorem select_expr_fragment_rejection (sql : String) (p : ParseResult)
    (st : Stmt) (e frag : List Char) (hst : p.statements = [st])
    (hty : st.stype = "SELECT")
    (he : e ∈ (extractSelectCols (toLowerL sql.data)).expressions)
    (hfrag : frag ∈ exprFragments e) (hbad : fragOK frag = false) :
    validate_sql sql (Except.ok p) = false := by
  by_cases hE : sql.isEmpty = true
  · unfold validate_sql; rw [if_pos hE]
  · have hne : sql.isEmpty = false := by simpa using hE
    rw [validate_sql_ok_single sql p st hst hne]
    have hnonempty : (extractSelectCols (toLowerL sql.data)).expressions ≠ [] :=
      List.ne_nil_of_mem he
    have hvef : validate_expressions
        (extractSelectCols (toLowerL sql.data)).expressions = false := by
      unfold validate_expressions
      have hallf : (extractSelectCols (toLowerL sql.data)).expressions.all
          (fun x => (exprFragments x).all fragOK) = false := by
        cases hA : (extractSelectCols (toLowerL sql.data)).expressions.all
            (fun x => (exprFragments x).all fragOK)
        · rfl
        · exfalso
          have h1 := List.all_eq_true.mp hA e he
          simp only [] at h1
          have h2 := List.all_eq_true.mp h1 frag hfrag
          rw [hbad] at h2
          exact Bool.false_ne_true h2
      simp [hallf]
    unfold validate_stmt
    rw [hty]
    simp [hnonempty, hvef]

/-- Witness for the amended C6 at a SELECT with unknown columns inside its
computed term. -/
theorem select_expr_fragment_rejection_witness :
    validate_sql "SELECT item, (price - cost) AS profit FROM inventory"
      (Except.ok parseSelBadExpr) = false :=
  select_expr_fragment_rejection
    "SELECT item, (price - cost) AS profit FROM inventory" parseSelBadExpr _
    (strL "(price - cost) as profit") (strL "price") rfl rfl (by decide)
    (by decide) (by decide)

/-- C7: any single-statement SELECT one of whose extracted computed
expressions contains a denylisted keyword — `case` or `union` or a nested
`select` as a word, or a `;` — is rejected, so inserting one of them into
the computed expression of an otherwise-accepted query flips it to reject
(and inserting `;DROP TABLE` that splits the input into two statements is
rejected by the single-statement check). -/
theorem denylist_rejection (sql : String) (p : ParseResult) (st : Stmt)
    (e : List Char) (hst : p.statements = [st]) (hty : st.stype = "SELECT")
    (he : e ∈ (extractSelectCols (toLowerL sql.data)).expressions)
    (hbad : searchWord (strL "case") (toLowerL e) = true ∨
            searchWord (strL "union") (toLowerL e) = true ∨
            searchWord (strL "select") (toLowerL e) = true ∨
            (toLowerL e).contains ';' = true) :
    validate_sql sql (Except.ok p) = false := by
  by_cases hE : sql.isEmpty = true
  · unfold validate_sql; rw [if_pos hE]
  · have hne : sql.isEmpty = false := by simpa using hE
    rw [validate_sql_ok_single sql p st hst hne]
    have hnonempty : (extractSelectCols (toLowerL sql.data)).expressions ≠ [] :=
      List.ne_nil_of_mem he
    have hEdeny : exprUnsafe e = true := by
      unfold exprUnsafe
      rcases hbad with h | h | h | h
      · have : UNSAFE_WORDS.any (fun w => searchWord w (toLowerL e)) = true :=
          List.any_eq_true.mpr ⟨strL "case", by decide, h⟩
        simp [this]
      · have : UNSAFE_WORDS.any (fun w => searchWord w (toLowerL e)) = true :=
          List.any_eq_true.mpr ⟨strL "union", by decide, h⟩
        simp [this]
      · have : UNSAFE_WORDS.any (fun w => searchWord w (toLowerL e)) = true :=
          List.any_eq_true.mpr ⟨strL "select", by decide, h⟩
        simp [this]
      · have h2 : ';' ∈ toLowerL e := by simpa using h
        simp [h2]
    have hvef : validate_expressions
        (extractSelectCols (toLowerL sql.data)).expressions = false := by
      unfold validate_expressions
      have hallf : (extractSelectCols (toLowerL sql.data)).expressions.all
          (fun x => !exprUnsafe x) = false := by
        cases hA : (extractSelectCols (toLowerL sql.data)).expressions.all
            (fun x => !exprUnsafe x)
        · rfl
        · exfalso
          have h1 := List.all_eq_true.mp hA e he
          rw [hEdeny] at h1
          simp at h1
      simp [hallf]
    unfold validate_stmt
    rw [hty]
    simp [hnonempty, hvef]

/-- Witness for C7 at a SELECT with `union` inserted into its computed
term. -/
theorem denylist_rejection_witness :
    validate_sql "SELECT item, (unit_price - unit_cost union all) FROM inventory"
      (Except.ok parseSelUnion) = false :=
  denylist_rejection
    "SELECT item, (unit_price - unit_cost union all) FROM inventory"
    parseSelUnion _ (strL "(unit_price - unit_cost union all)") rfl rfl
    (by decide) (Or.inr (Or.inl (by decide)))

/-- C8: a nonempty single-statement SELECT whose lowercased text contains
`from inventory` and whose select list is a bare `*` or only allowed bare
column names is accepted (the WHERE clause of a SELECT is never inspected,
so a `?`-bound WHERE never blocks acceptance). -/
theorem bare_select_accepted (sql : String) (p : ParseResult) (st : Stmt)
    (hne : sql.isEmpty = false) (hst : p.statements = [st])
    (hty : st.stype = "SELECT") (hleaves : flattenedLeaves st)
    (hinv : containsSeq (strL "from inventory") (toLowerL sql.data) = true)
    (hsel : selectListOnlyAllowed (toLowerL sql.data) = true) :
    validate_sql sql (Except.ok p) = true := by
  rw [validate_sql_ok_single sql p st hst hne]
  obtain ⟨cols, hext, hcols⟩ := selectList_extract _ hsel
  have hwalk := tokenWalk_clean st.stype st.tokens hleaves
  rw [hty] at hwalk
  have hinvmem : memCL allowedTableNames (strL "inventory") = true := by decide
  have hcolsall : cols.all (memCL all_allowed_columns) = true :=
    List.all_eq_true.mpr fun c hc => by simpa [memCL] using hcols c hc
  unfold validate_stmt
  rw [hty]
  simp [hext, hwalk, hinv, hinvmem, hcolsall]

/-- Witness for C8 at a plain two-column SELECT with a placeholder-bound
WHERE. -/
theorem bare_select_accepted_witness :
    validate_sql "SELECT id, item FROM inventory WHERE item = ?"
      (Except.ok parseSelPlain) = true :=
  bare_select_accepted "SELECT id, item FROM inventory WHERE item = ?"
    parseSelPlain _ (by decide) rfl rfl (by decide) (by decide) (by decide)

end InventoryAI
